import Mathlib

/-!
Shallow embedding of the screenshot-artifact and adaptive-timeout engine of
the file `src/utils.py` (classes `ScreenshotConfig` and `NavigationConfig`,
functions `save_screenshot` and `cleanup_old_screenshots`), together with
theorems settling the behavioural claims about it.

Python floats are modelled as exact rationals, Python ints as `Int`, Python
lists as `List`.  The Python conversion `int(x)` on a float truncates toward
zero, which `pyInt` reproduces on rationals.
-/

/-- Python `int(x)` applied to a float: truncation toward zero. -/
def pyInt (q : ℚ) : ℤ := if 0 ≤ q then ⌊q⌋ else ⌈q⌉

/-- The fields of `NavigationConfig.__init__` that `get_timeout_for_url`
reads: `default_timeout`, `auto_adjust`, `min_timeout`, `max_timeout`
(all except `auto_adjust` are millisecond integers). -/
structure NavigationConfig where
  defaultTimeout : ℤ
  autoAdjust : Bool
  minTimeout : ℤ
  maxTimeout : ℤ
deriving DecidableEq

/-- One entry of `NavigationConfig.navigation_history`: the dict
`{"url": url, "duration_ms": duration_ms, "timestamp": time.time()}`
appended by `track_navigation_time`. -/
structure NavEntry where
  url : Option String
  durationMs : ℚ
  timestamp : ℚ
deriving DecidableEq

/-- The capacity `NavigationConfig.max_history_size`, fixed to 10 in
`__init__`. -/
def maxHistorySize : ℕ := 10

/-- The method `NavigationConfig.track_navigation_time(url, duration_ms)`:
append the new entry, then `pop(0)` (drop the front element) once the list
length exceeds `max_history_size`. -/
def trackNavigationTime (history : List NavEntry) (url : Option String)
    (durationMs : ℚ) (now : ℚ) : List NavEntry :=
  let h := history ++ [⟨url, durationMs, now⟩]
  if h.length > maxHistorySize then h.tail else h

/-- The average `total_time / len(self.navigation_history)` computed by
`get_timeout_for_url` from the recorded `duration_ms` values. -/
def navHistoryMean (history : List NavEntry) : ℚ :=
  (history.map (fun e => e.durationMs)).sum / history.length

/-- The method `NavigationConfig.get_timeout_for_url(url)`: with adaptation
disabled or an empty history return `default_timeout`; otherwise return
`max(min_timeout, min(int(avg * 1.5), max_timeout))`.  The `url` argument is
accepted but never read by the body. -/
def getTimeoutForUrl (cfg : NavigationConfig) (history : List NavEntry)
    (url : Option String) : ℤ :=
  if !cfg.autoAdjust || history.isEmpty then
    cfg.defaultTimeout
  else
    max cfg.minTimeout (min (pyInt (navHistoryMean history * (3 / 2))) cfg.maxTimeout)

/-- Modelled from the spec, for comparison with `getTimeoutForUrl`: "compute
the arithmetic mean of the samples of the key, multiply by a safety margin of
1.5, then clamp to `[config.min_timeout, config.max_timeout]`" — as an exact
rational, with no truncation step. -/
def specTimeoutEstimate (cfg : NavigationConfig) (history : List NavEntry) : ℚ :=
  max (cfg.minTimeout : ℚ) (min (navHistoryMean history * (3 / 2)) (cfg.maxTimeout : ℚ))

/-- A run of `track_navigation_time` calls, folded left over the argument
triples `(url, duration_ms, now)` starting from the empty history. -/
def runTrackCalls (calls : List (Option String × ℚ × ℚ)) : List NavEntry :=
  calls.foldl (fun acc c => trackNavigationTime acc c.1 c.2.1 c.2.2) []

/-- A file in the screenshot directory as `cleanup_old_screenshots` sees it:
an identifying name and the `st_mtime` it sorts by. -/
structure SFile where
  name : ℕ
  mtime : ℕ
deriving DecidableEq

/-- The comparison used by `screenshots.sort(key=lambda x: x.stat().st_mtime)`:
ascending modification time. -/
def mtimeLE (a b : SFile) : Prop := a.mtime ≤ b.mtime

instance : DecidableRel mtimeLE := fun a b => Nat.decLe a.mtime b.mtime

instance : IsTotal SFile mtimeLE := ⟨fun a b => Nat.le_total a.mtime b.mtime⟩

instance : IsTrans SFile mtimeLE := ⟨fun _ _ _ => Nat.le_trans⟩

/-- The directory contents `cleanup_old_screenshots(directory, max_files)`
leaves behind: the listing is sorted ascending by modification time and, when
the count exceeds `max_files`, the surplus oldest prefix
`screenshots[:len(screenshots) - max_files]` is deleted, keeping the rest;
otherwise nothing is touched. -/
def cleanupOldScreenshots (maxFiles : ℤ) (files : List SFile) : List SFile :=
  let sorted := List.insertionSort mtimeLE files
  if (files.length : ℤ) > maxFiles then
    sorted.drop (sorted.length - maxFiles.toNat)
  else files

/-- The surplus prefix `screenshots[:len(screenshots) - max_files]` that
`cleanup_old_screenshots` deletes; empty when the count is within bounds. -/
def cleanupDeleted (maxFiles : ℤ) (files : List SFile) : List SFile :=
  let sorted := List.insertionSort mtimeLE files
  if (files.length : ℤ) > maxFiles then
    sorted.take (sorted.length - maxFiles.toNat)
  else []

/-- The directory-state effect of one successful `save_screenshot` call: a new
file is written (its modification time given by the monotone clock), and then
`cleanup_old_screenshots` runs on the directory whenever `max_screenshots > 0`
(line 421 of `save_screenshot`). -/
def saveScreenshotStep (maxScreenshots : ℤ) (clock : ℕ) (dir : List SFile) :
    List SFile :=
  let dir2 := dir ++ [⟨clock, clock⟩]
  if 0 < maxScreenshots then cleanupOldScreenshots maxScreenshots dir2 else dir2

/-- The directory contents after `n` successive successful `save_screenshot`
calls into an initially empty directory. -/
def dirAfter (maxScreenshots : ℤ) : ℕ → List SFile
  | 0 => []
  | n + 1 => saveScreenshotStep maxScreenshots n (dirAfter maxScreenshots n)

/-- The per-file deletion loop of `cleanup_old_screenshots`: each file of
`files_to_delete` has its `unlink` attempted in turn; a failure (modelled by
the predicate `fails`) is caught, reported with `log_error`, and the loop
continues with the next file.  Returns the successfully deleted files and the
files whose deletion failed, in processing order. -/
def attemptDeletions (fails : SFile → Bool) : List SFile → List SFile × List SFile
  | [] => ([], [])
  | f :: rest =>
      let r := attemptDeletions fails rest
      if fails f then (r.1, f :: r.2) else (f :: r.1, r.2)

/-- The enum `ScreenshotMode`: the three capture modes `NONE`, `SEARCH`,
`ALL`. -/
inductive ScreenshotMode
  | modeNone
  | modeSearch
  | modeAll
deriving DecidableEq

/-- The method `ScreenshotConfig.should_take_screenshot(context)`: mode
`NONE` always refuses; mode `SEARCH` evaluates
`context == "search" if context else False` (Python truthiness: an absent or
empty context short-circuits to `False`); mode `ALL` always accepts. -/
def shouldTakeScreenshot (mode : ScreenshotMode) (context : Option String) : Bool :=
  match mode with
  | ScreenshotMode.modeNone => false
  | ScreenshotMode.modeSearch =>
      match context with
      | some c => if c = "" then false else decide (c = "search")
      | Option.none => false
  | ScreenshotMode.modeAll => true

/-- The clamp `self.quality = max(1, min(100, quality))` applied by
`ScreenshotConfig.__init__` to its `quality` argument. -/
def clampQuality (quality : ℤ) : ℤ := max 1 (min 100 quality)

/-- The quality value `save_screenshot` hands to `image.save(...)`:
`quality = quality if quality is not None else config.quality` — an explicit
per-call argument is used as given, with no further clamping. -/
def resolveQuality (qualityArg : Option ℤ) (configQuality : ℤ) : ℤ :=
  qualityArg.getD configQuality

/-- Zero-padded decimal rendering, as `strftime` pads `%m`, `%d`, `%H`,
`%M`, `%S` to two digits and `%Y` to four. -/
def padNum (width n : ℕ) : String :=
  let s := toString n
  String.mk (List.replicate (width - s.length) '0') ++ s

/-- The timestamp `datetime.datetime.now().strftime("%Y%m%d_%H%M%S")`
rendered from broken-down time components: `YYYYMMDD_HHMMSS`. -/
def strftimeYmdHMS (y mo d h mi s : ℕ) : String :=
  padNum 4 y ++ padNum 2 mo ++ padNum 2 d ++ "_" ++
    padNum 2 h ++ padNum 2 mi ++ padNum 2 s

/-- The fragment `context_str = f"_{context}" if context else ""` from
`save_screenshot` (Python truthiness: absent or empty context yields the
empty string). -/
def contextStr : Option String → String
  | some c => if c = "" then "" else "_" ++ c
  | Option.none => ""

/-- The filename `f"{directory}/screenshot_{timestamp}{context_str}{extension}"`
built by `save_screenshot`. -/
def screenshotFilename (directory timestamp : String) (context : Option String)
    (extension : String) : String :=
  directory ++ "/screenshot_" ++ timestamp ++ contextStr context ++ extension

/-- Encoded image byte strings, distinguished by how they were produced.
`save_screenshot` handles three producers: the raw base64-decoded input
bytes, the PIL JPEG encoder (`image.save(..., format="JPEG", quality=...)`),
and the PIL PNG encoder (`last_image.save(last_buffer, format="PNG")`).  A
PNG byte stream is never byte-identical to a raw non-PNG input or a JPEG
stream (the container formats differ from the first bytes on), which the
separate constructors capture. -/
inductive PyBytes
  | raw (data : ℕ)
  | jpegEnc (pix : ℕ) (quality : ℤ)
  | pngEnc (pix : ℕ)
deriving DecidableEq

/-- Decoding `Image.open(...)`: recover the pixel data carried by an encoded
byte string. -/
def pilDecode : PyBytes → ℕ
  | PyBytes.raw data => data
  | PyBytes.jpegEnc pix _ => pix
  | PyBytes.pngEnc pix => pix

/-- The digest `hashlib.md5(b).hexdigest()`: a stable content digest whose
equality coincides with byte equality (the code uses it only for equality
tests). -/
def md5hex (b : PyBytes) : PyBytes := b

/-- A file written into the screenshot directory: name, encoded content
bytes, and modification time. -/
structure ShotFile where
  name : ℕ
  content : PyBytes
  mtime : ℕ
deriving DecidableEq

/-- The file `matching_files[0]` after sorting by `st_mtime` in reverse: the
most recently modified file of the directory, if any. -/
def latestByMtime (dir : List ShotFile) : Option ShotFile :=
  dir.foldl
    (fun acc f =>
      match acc with
      | some g => if g.mtime ≤ f.mtime then some f else some g
      | Option.none => some f)
    Option.none

/-- The dedup-relevant behaviour of `save_screenshot` (default `jpeg` format,
contextless directory): when `compare_last` holds and the directory has a
most-recent file, compare `md5(image_data)` of the incoming bytes against the
md5 of the last file decoded and re-encoded through PNG
(`last_image.save(last_buffer, format="PNG")`); on a match return the
existing path with no write, otherwise (and when there is nothing to compare)
encode the decoded image as JPEG at `quality` and write it as a new file
stamped by the monotone clock.  Returns the directory contents and the path
returned to the caller. -/
def saveScreenshotDedup (clock : ℕ) (quality : ℤ) (compareLast : Bool)
    (dir : List ShotFile) (input : PyBytes) : List ShotFile × Option ℕ :=
  match (if compareLast then latestByMtime dir else Option.none) with
  | some last =>
      if md5hex input = md5hex (PyBytes.pngEnc (pilDecode last.content)) then
        (dir, some last.name)
      else
        (dir ++ [⟨clock, PyBytes.jpegEnc (pilDecode input) quality, clock⟩], some clock)
  | Option.none =>
      (dir ++ [⟨clock, PyBytes.jpegEnc (pilDecode input) quality, clock⟩], some clock)

lemma getTimeoutForUrl_of_cond (cfg : NavigationConfig) (history : List NavEntry)
    (url : Option String) (h : (!cfg.autoAdjust || history.isEmpty) = true) :
    getTimeoutForUrl cfg history url = cfg.defaultTimeout := by
  simp [getTimeoutForUrl, h]

lemma getTimeoutForUrl_of_adaptive (cfg : NavigationConfig) (history : List NavEntry)
    (url : Option String) (h1 : cfg.autoAdjust = true) (h2 : history ≠ []) :
    getTimeoutForUrl cfg history url =
      max cfg.minTimeout (min (pyInt (navHistoryMean history * (3 / 2))) cfg.maxTimeout) := by
  simp [getTimeoutForUrl, h1, h2]

/-- Claim C3, as stated, is false: the configuration is free to put
`default_timeout` outside `[min_timeout, max_timeout]`, and with zero recorded
samples `get_timeout_for_url` returns that `default_timeout` unclamped.  With
`default_timeout = 70000`, `min_timeout = 5000`, `max_timeout = 60000` and an
empty history the returned value 70000 is not within the bounds. -/
theorem timeout_default_escapes_bounds :
    ¬ ((5000 : ℤ) ≤ getTimeoutForUrl ⟨70000, true, 5000, 60000⟩ [] Option.none ∧
       getTimeoutForUrl ⟨70000, true, 5000, 60000⟩ [] Option.none ≤ 60000) := by
  decide

/-- Claim C3 (amended): provided the configuration satisfies
`min_timeout ≤ default_timeout ≤ max_timeout`, `get_timeout_for_url` always
returns a value within `[min_timeout, max_timeout]`, and with zero recorded
samples it returns exactly `default_timeout`. -/
theorem timeout_bounds_amended (cfg : NavigationConfig) (history : List NavEntry)
    (url : Option String) (h1 : cfg.minTimeout ≤ cfg.defaultTimeout)
    (h2 : cfg.defaultTimeout ≤ cfg.maxTimeout) :
    (cfg.minTimeout ≤ getTimeoutForUrl cfg history url ∧
     getTimeoutForUrl cfg history url ≤ cfg.maxTimeout) ∧
    (history = [] → getTimeoutForUrl cfg history url = cfg.defaultTimeout) := by
  constructor
  · by_cases hc : (!cfg.autoAdjust || history.isEmpty) = true
    · rw [getTimeoutForUrl_of_cond cfg history url hc]
      exact ⟨h1, h2⟩
    · simp only [Bool.or_eq_true, Bool.not_eq_true', List.isEmpty_iff, not_or] at hc
      rw [getTimeoutForUrl_of_adaptive cfg history url
        (by simpa using hc.1) hc.2]
      refine ⟨le_max_left _ _, max_le (h1.trans h2) (min_le_right _ _)⟩
  · intro h
    subst h
    exact getTimeoutForUrl_of_cond cfg [] url (by simp)

theorem timeout_bounds_amended_witness :
    ((5000 : ℤ) ≤ 30000 ∧ (30000 : ℤ) ≤ 60000) ∧
    ((5000 ≤ getTimeoutForUrl ⟨30000, true, 5000, 60000⟩ [] Option.none ∧
      getTimeoutForUrl ⟨30000, true, 5000, 60000⟩ [] Option.none ≤ 60000) ∧
     (([] : List NavEntry) = [] →
      getTimeoutForUrl ⟨30000, true, 5000, 60000⟩ [] Option.none = 30000)) :=
  ⟨⟨by decide, by decide⟩,
   timeout_bounds_amended ⟨30000, true, 5000, 60000⟩ [] Option.none (by decide) (by decide)⟩

/-- Claim C4, as stated, is false: `get_timeout_for_url` truncates
`avg * 1.5` to an integer with `int(...)` before clamping, so whenever the
mean times 1.5 is not an integer the returned value differs from the exact
clamped product.  With one recorded sample of 10001 ms and bounds
`[5000, 60000]` the code returns 15001 while the exact mean times 1.5,
clamped, is 15001.5. -/
theorem timeout_mean_not_exact :
    ((getTimeoutForUrl ⟨30000, true, 5000, 60000⟩ [⟨Option.none, 10001, 0⟩] Option.none : ℤ) : ℚ) ≠
      specTimeoutEstimate ⟨30000, true, 5000, 60000⟩ [⟨Option.none, 10001, 0⟩] := by
  have h : getTimeoutForUrl ⟨30000, true, 5000, 60000⟩ [⟨Option.none, 10001, 0⟩] Option.none
      = 15001 := by
    rw [getTimeoutForUrl_of_adaptive _ _ _ rfl (by simp)]
    norm_num [navHistoryMean, pyInt]
  rw [h]
  norm_num [specTimeoutEstimate, navHistoryMean]

/-- Claim C4 (amended): when adaptive estimation is enabled and at least one
sample is recorded, the estimate equals the arithmetic mean of the stored
samples multiplied by 1.5, truncated toward zero to an integer, and then
clamped to `[min_timeout, max_timeout]`; in particular, for a history of ten
samples of 1000 ms each the estimate is 1500 ms clamped to those bounds. -/
theorem timeout_estimate_formula (cfg : NavigationConfig) (history : List NavEntry)
    (url : Option String) (h1 : cfg.autoAdjust = true) (h2 : history ≠ []) :
    getTimeoutForUrl cfg history url =
      max cfg.minTimeout (min (pyInt (navHistoryMean history * (3 / 2))) cfg.maxTimeout) ∧
    getTimeoutForUrl cfg (List.replicate 10 ⟨url, 1000, 0⟩) url =
      max cfg.minTimeout (min 1500 cfg.maxTimeout) := by
  refine ⟨getTimeoutForUrl_of_adaptive cfg history url h1 h2, ?_⟩
  rw [getTimeoutForUrl_of_adaptive cfg _ url h1 (by simp)]
  have hmean : navHistoryMean (List.replicate 10 ⟨url, 1000, 0⟩) = 1000 := by
    simp [navHistoryMean]
    norm_num
  rw [hmean]
  norm_num [pyInt]

theorem timeout_estimate_formula_witness :
    (⟨30000, true, 5000, 60000⟩ : NavigationConfig).autoAdjust = true ∧
    ([⟨Option.none, (2000 : ℚ), 0⟩] : List NavEntry) ≠ [] ∧
    (getTimeoutForUrl ⟨30000, true, 5000, 60000⟩ [⟨Option.none, 2000, 0⟩] Option.none =
      max (5000 : ℤ) (min (pyInt (navHistoryMean [⟨Option.none, 2000, 0⟩] * (3 / 2))) 60000) ∧
     getTimeoutForUrl ⟨30000, true, 5000, 60000⟩
        (List.replicate 10 ⟨Option.none, 1000, 0⟩) Option.none =
      max (5000 : ℤ) (min 1500 60000)) :=
  ⟨rfl, by simp,
   timeout_estimate_formula ⟨30000, true, 5000, 60000⟩ [⟨Option.none, 2000, 0⟩]
     Option.none rfl (by simp)⟩

/-- Claim C10: `get_timeout_for_url` never reads its `url` argument — the
latency history is one shared list, not keyed per url — so for a fixed
recorded history and configuration any two calls, with different urls or with
none, return the same value. -/
theorem timeout_url_independent (cfg : NavigationConfig) (history : List NavEntry)
    (u1 u2 : Option String) :
    getTimeoutForUrl cfg history u1 = getTimeoutForUrl cfg history u2 := rfl

lemma trackNavigationTime_length_le (history : List NavEntry) (url : Option String)
    (d t : ℚ) (h : history.length ≤ maxHistorySize) :
    (trackNavigationTime history url d t).length ≤ maxHistorySize := by
  unfold trackNavigationTime
  by_cases hlen : (history ++ [(⟨url, d, t⟩ : NavEntry)]).length > maxHistorySize
  · rw [if_pos hlen]
    simp only [List.length_tail, List.length_append, List.length_singleton]
    omega
  · rw [if_neg hlen]
    omega

lemma runTrackCalls_aux (calls : List (Option String × ℚ × ℚ)) (acc : List NavEntry)
    (h : acc.length ≤ maxHistorySize) :
    (calls.foldl (fun acc c => trackNavigationTime acc c.1 c.2.1 c.2.2) acc).length ≤
      maxHistorySize := by
  induction calls generalizing acc with
  | nil => simpa using h
  | cons c rest ih =>
      simp only [List.foldl_cons]
      exact ih _ (trackNavigationTime_length_le acc c.1 c.2.1 c.2.2 h)

/-- Claim C8: starting from the empty history, any sequence of
`track_navigation_time` calls leaves at most 10 stored samples, and each call
appends the new sample at the end, removing exactly the oldest sample from
the front when the capacity of 10 is already full — never a sample from the
middle. -/
theorem latency_history_fifo (calls : List (Option String × ℚ × ℚ))
    (history : List NavEntry) (url : Option String) (d t : ℚ)
    (h : history.length ≤ maxHistorySize) :
    (runTrackCalls calls).length ≤ maxHistorySize ∧
    trackNavigationTime history url d t =
      (if history.length = maxHistorySize then history.tail ++ [⟨url, d, t⟩]
       else history ++ [⟨url, d, t⟩]) := by
  constructor
  · exact runTrackCalls_aux calls [] (by simp [maxHistorySize])
  · unfold trackNavigationTime
    by_cases hfull : history.length = maxHistorySize
    · have hgt : (history ++ [(⟨url, d, t⟩ : NavEntry)]).length > maxHistorySize := by
        simp [hfull]
      rw [if_pos hgt, if_pos hfull]
      cases history with
      | nil => simp [maxHistorySize] at hfull
      | cons a rest => simp
    · have hle : ¬ (history ++ [(⟨url, d, t⟩ : NavEntry)]).length > maxHistorySize := by
        simp only [List.length_append, List.length_singleton]
        omega
      rw [if_neg hle, if_neg hfull]

theorem latency_history_fifo_witness :
    ([] : List NavEntry).length ≤ maxHistorySize ∧
    ((runTrackCalls [(Option.none, 7, 0)]).length ≤ maxHistorySize ∧
     trackNavigationTime [] Option.none 7 0 =
       (if ([] : List NavEntry).length = maxHistorySize then
          ([] : List NavEntry).tail ++ [⟨Option.none, 7, 0⟩]
        else [] ++ [⟨Option.none, 7, 0⟩])) :=
  ⟨by decide,
   latency_history_fifo [(Option.none, 7, 0)] [] Option.none 7 0 (by decide)⟩

lemma cleanupOldScreenshots_length (maxFiles : ℤ) (files : List SFile)
    (hK : 1 ≤ maxFiles) :
    (cleanupOldScreenshots maxFiles files).length = min files.length maxFiles.toNat := by
  unfold cleanupOldScreenshots
  by_cases h : (files.length : ℤ) > maxFiles
  · rw [if_pos h]
    simp only [List.length_drop, List.length_insertionSort]
    omega
  · rw [if_neg h]
    omega

lemma dirAfter_length (maxFiles : ℤ) (hK : 1 ≤ maxFiles) (n : ℕ) :
    (dirAfter maxFiles n).length = min n maxFiles.toNat := by
  induction n with
  | zero => simp [dirAfter]
  | succ n ih =>
      unfold dirAfter saveScreenshotStep
      rw [if_pos (by omega : (0 : ℤ) < maxFiles),
        cleanupOldScreenshots_length maxFiles _ hK]
      simp only [List.length_append, List.length_singleton, ih]
      omega

/-- Claim C1: after `n` successful `save_screenshot` calls into one directory
with `max_files = K ≥ 1` the directory contains `min n K` artifact files,
and the eviction pass deletes only the oldest files by modification time —
every deleted file is at least as old as every file the pass leaves behind. -/
theorem eviction_invariant (maxFiles : ℤ) (n : ℕ) (files : List SFile)
    (hK : 1 ≤ maxFiles) :
    (dirAfter maxFiles n).length = min n maxFiles.toNat ∧
    ∀ d ∈ cleanupDeleted maxFiles files, ∀ f ∈ cleanupOldScreenshots maxFiles files,
      d.mtime ≤ f.mtime := by
  refine ⟨dirAfter_length maxFiles hK n, ?_⟩
  by_cases h : (files.length : ℤ) > maxFiles
  · have hsorted : List.Sorted mtimeLE (List.insertionSort mtimeLE files) :=
      List.sorted_insertionSort mtimeLE files
    set s := List.insertionSort mtimeLE files with hs
    set j := s.length - maxFiles.toNat with hj
    have hsplit : s.take j ++ s.drop j = s := List.take_append_drop j s
    have hpair : List.Pairwise mtimeLE (s.take j ++ s.drop j) := by
      rw [hsplit]; exact hsorted
    have hcross := (List.pairwise_append.mp hpair).2.2
    intro d hd f hf
    have hd2 : d ∈ s.take j := by
      simpa [cleanupDeleted, if_pos h, hs, hj] using hd
    have hf2 : f ∈ s.drop j := by
      simpa [cleanupOldScreenshots, if_pos h, hs, hj] using hf
    exact hcross d hd2 f hf2
  · intro d hd
    simp [cleanupDeleted, if_neg h] at hd

theorem eviction_invariant_witness :
    (1 : ℤ) ≤ 2 ∧
    ((dirAfter 2 3).length = min 3 (Int.toNat 2) ∧
     ∀ d ∈ cleanupDeleted 2 [⟨0, 5⟩, ⟨1, 1⟩, ⟨2, 3⟩],
       ∀ f ∈ cleanupOldScreenshots 2 [⟨0, 5⟩, ⟨1, 1⟩, ⟨2, 3⟩], d.mtime ≤ f.mtime) :=
  ⟨by decide, eviction_invariant 2 3 [⟨0, 5⟩, ⟨1, 1⟩, ⟨2, 3⟩] (by decide)⟩

lemma attemptDeletions_spec (fails : SFile → Bool) (l : List SFile) :
    attemptDeletions fails l = (l.filter (fun f => !fails f), l.filter fails) := by
  induction l with
  | nil => simp [attemptDeletions]
  | cons f rest ih =>
      by_cases hf : fails f = true <;>
        simp [attemptDeletions, ih, List.filter_cons, hf]

/-- Claim C9: during the eviction pass a failure to delete one surplus file
does not abort the rest — every file of the surplus list ends up either
deleted or individually reported as failed (so deletion of every surplus file
is attempted), and the two groups partition the surplus list exactly. -/
theorem eviction_best_effort (fails : SFile → Bool) (maxFiles : ℤ)
    (files : List SFile) :
    (attemptDeletions fails (cleanupDeleted maxFiles files)).1 =
      (cleanupDeleted maxFiles files).filter (fun f => !fails f) ∧
    (attemptDeletions fails (cleanupDeleted maxFiles files)).2 =
      (cleanupDeleted maxFiles files).filter fails ∧
    (attemptDeletions fails (cleanupDeleted maxFiles files)).1.length +
      (attemptDeletions fails (cleanupDeleted maxFiles files)).2.length =
      (cleanupDeleted maxFiles files).length := by
  rw [attemptDeletions_spec]
  refine ⟨rfl, rfl, ?_⟩
  dsimp only
  have := List.length_eq_length_filter_add (l := cleanupDeleted maxFiles files) fails
  omega

/-- Claim C7: the capture decision is a pure function of the configured mode
and the context: mode `NONE` returns `false` and mode `ALL` returns `true`
for every context, and mode `SEARCH` returns `true` exactly when the context
is the string `"search"`. -/
theorem capture_policy_pure (context : Option String) :
    shouldTakeScreenshot ScreenshotMode.modeNone context = false ∧
    shouldTakeScreenshot ScreenshotMode.modeAll context = true ∧
    (shouldTakeScreenshot ScreenshotMode.modeSearch context = true ↔
      context = some "search") := by
  refine ⟨rfl, rfl, ?_⟩
  cases context with
  | none => simp [shouldTakeScreenshot]
  | some c =>
      by_cases hc : c = ""
      · subst hc
        simp [shouldTakeScreenshot]
      · simp [shouldTakeScreenshot, hc]

/-- Claim C5, as stated, is false: a `save_screenshot` call made with the
explicit argument `quality = 150` encodes with quality 150, not 100 — the
per-call value bypasses the clamp, which only `ScreenshotConfig.__init__`
applies to the configured quality. -/
theorem per_call_quality_unclamped :
    resolveQuality (some 150) (clampQuality 85) = 150 ∧ (150 : ℤ) ≠ 100 ∧
    resolveQuality (some (-5)) (clampQuality 85) = -5 ∧ (-5 : ℤ) ≠ 1 := by
  decide

/-- Claim C5 (amended): the clamp to `[1, 100]` is applied where the
configuration is constructed — `ScreenshotConfig(quality=150)` stores quality
100 and `ScreenshotConfig(quality=-5)` stores quality 1, and every
constructed configuration carries a quality in `[1, 100]` — while a quality
passed per call to `save_screenshot` is used for encoding as given, and an
omitted one falls back to the clamped value of the configuration. -/
theorem quality_clamping_config (q qp cq : ℤ) :
    1 ≤ clampQuality q ∧ clampQuality q ≤ 100 ∧
    clampQuality 150 = 100 ∧ clampQuality (-5) = 1 ∧
    resolveQuality (some qp) cq = qp ∧ resolveQuality Option.none cq = cq := by
  refine ⟨?_, ?_, by decide, by decide, rfl, rfl⟩
  · simp only [clampQuality]
    omega
  · simp only [clampQuality]
    omega

/-- Claim C6, as stated, is false: `save_screenshot` names files with a fixed
`screenshot_` prefix and puts the context tag after the timestamp, so a store
with context `search` produces `screenshots/screenshot_20260101_120000_search.jpg`,
not the claimed `<context>_<timestamp>.<ext>` layout
`screenshots/search_20260101_120000.jpg`. -/
theorem filename_layout_counterexample :
    screenshotFilename "screenshots" (strftimeYmdHMS 2026 1 1 12 0 0)
        (some "search") ".jpg" = "screenshots/screenshot_20260101_120000_search.jpg" ∧
    "screenshots/screenshot_20260101_120000_search.jpg" ≠
      "screenshots/search_20260101_120000.jpg" := by
  refine ⟨rfl, ?_⟩
  decide

/-- Claim C6 (amended): every artifact file written by `save_screenshot` is
named `screenshot_<timestamp>_<context>.<ext>` when the request carries a
non-empty context and `screenshot_<timestamp>.<ext>` when it does not — the
context tag follows the timestamp and a fixed `screenshot_` prefix — with the
timestamp formatted `YYYYMMDD_HHMMSS` at second resolution. -/
theorem filename_layout_amended (dir ts ext c : String) (hc : c ≠ "") :
    screenshotFilename dir ts Option.none ext = dir ++ "/screenshot_" ++ ts ++ ext ∧
    screenshotFilename dir ts (some c) ext =
      dir ++ "/screenshot_" ++ ts ++ "_" ++ c ++ ext ∧
    strftimeYmdHMS 2026 1 1 12 0 0 = "20260101_120000" := by
  refine ⟨?_, ?_, rfl⟩
  · simp [screenshotFilename, contextStr, String.append_empty]
  · simp only [screenshotFilename, contextStr, if_neg hc, String.append_assoc]

theorem filename_layout_amended_witness :
    ("search" : String) ≠ "" ∧
    (screenshotFilename "screenshots" "20260101_120000" Option.none ".jpg" =
       "screenshots" ++ "/screenshot_" ++ "20260101_120000" ++ ".jpg" ∧
     screenshotFilename "screenshots" "20260101_120000" (some "search") ".jpg" =
       "screenshots" ++ "/screenshot_" ++ "20260101_120000" ++ "_" ++ "search" ++ ".jpg" ∧
     strftimeYmdHMS 2026 1 1 12 0 0 = "20260101_120000") :=
  ⟨by decide, filename_layout_amended "screenshots" "20260101_120000" ".jpg" "search"
    (by decide)⟩

/-- Claim C2 is right about the intent but the code misses it: storing the
same image bytes twice in a row with dedup enabled does not yield one file —
the first call stores a JPEG encoding, while the second call compares the md5
of the raw incoming bytes against the md5 of a PNG re-encoding of that JPEG
file, two byte streams that can never be equal, so a second file is written
and a different path returned. -/
theorem dedup_missed_duplicate :
    (saveScreenshotDedup 1 85 true
        (saveScreenshotDedup 0 85 true [] (PyBytes.raw 7)).1 (PyBytes.raw 7)).1.length = 2 ∧
    (saveScreenshotDedup 1 85 true
        (saveScreenshotDedup 0 85 true [] (PyBytes.raw 7)).1 (PyBytes.raw 7)).2 ≠
      (saveScreenshotDedup 0 85 true [] (PyBytes.raw 7)).2 := by
  decide
